import Mathlib

/-!
Verification of the compatibility-filtering and similarity-ranking engine of
the Spotify DJ dashboard (source file spotify_api.py, class SpotifyDJAPI).

The catalog is a list of track records.  Numeric audio features and tempos are
modelled as exact rationals; release years as integers.  The floating-point
square root used in the distance computation is modelled as an abstract
function parameter, and theorems that depend on its behaviour assume only the
properties every correct square-root implementation has (nonnegativity on
nonnegative inputs, exactness at zero).  The final sort is performed by
pandas sort_values with its default algorithm, which is documented as an
unstable comparison sort; it is therefore modelled relationally, as an
arbitrary permutation of the scored candidates that is ordered by
non-increasing similarity.
-/

/-- A track record of the catalog, with the columns that the
compatibility-filtering and ranking engine reads, including the derived
columns produced by the cleaning step. -/
structure Track where
  track_id : String
  tempo : ℚ
  key : ℕ
  mode : ℕ
  year : ℤ
  playlist_genre : String
  playlist_subgenre : String
  danceability : ℚ
  energy : ℚ
  valence : ℚ
  acousticness : ℚ
  instrumentalness : ℚ
  speechiness : ℚ
  liveness : ℚ
deriving DecidableEq

/-- The keyword arguments of find_compatible_songs, as a configuration
record. -/
structure Config where
  bpm_tolerance : ℚ
  include_double_half : Bool
  match_key : Bool
  include_relative : Bool
  match_genre : Bool
  match_subgenre : Bool
  year_tolerance : ℤ
deriving DecidableEq

/-- The key_map dictionary of _clean_data and _filter_by_key: pitch class
number to musical key name. -/
def key_map (k : ℕ) : String :=
  match k with
  | 0 => "C" | 1 => "C#" | 2 => "D" | 3 => "D#" | 4 => "E" | 5 => "F"
  | 6 => "F#" | 7 => "G" | 8 => "G#" | 9 => "A" | 10 => "A#" | 11 => "B"
  | _ => ""

/-- The mode dictionary of _clean_data: 0 is Minor, 1 is Major. -/
def mode_name (m : ℕ) : String :=
  match m with
  | 0 => "Minor" | 1 => "Major" | _ => ""

/-- The derived full_key column of _clean_data: key name, a space, and the
mode name. -/
def full_key (t : Track) : String :=
  key_map t.key ++ " " ++ mode_name t.mode

/-- The relative-key computation of _filter_by_key, lines 160 to 167 of
spotify_api.py: a major key (mode 1) maps to the minor key 9 semitones up,
any other mode maps to the major key 3 semitones up.  Returns the pitch
class and mode of the relative key. -/
def relative_key (k m : ℕ) : ℕ × ℕ :=
  if m = 1 then ((k + 9) % 12, 0) else ((k + 3) % 12, 1)

/-- The allowed_keys list built by _filter_by_key: the full key of the
reference song, followed, when include_relative is set, by the label of the
relative key. -/
def allowed_keys (ref : Track) (include_relative : Bool) : List String :=
  if include_relative then
    [full_key ref,
     key_map (relative_key ref.key ref.mode).1 ++ " "
       ++ mode_name (relative_key ref.key ref.mode).2]
  else
    [full_key ref]

/-- The tempo test of _filter_by_bpm for a single candidate row: the base
band test, and, when include_double_half is set, also the doubled band
(bounds 2 * bpm_min and 2 * bpm_max) and the halved band (bounds
bpm_min / 2 and bpm_max / 2). -/
def bpm_pass (ref : Track) (tol : ℚ) (dh : Bool) (t : Track) : Bool :=
  let bpm_min := ref.tempo - tol
  let bpm_max := ref.tempo + tol
  if dh then
    (decide (bpm_min ≤ t.tempo) && decide (t.tempo ≤ bpm_max)) ||
    (decide (2 * bpm_min ≤ t.tempo) && decide (t.tempo ≤ 2 * bpm_max)) ||
    (decide (bpm_min / 2 ≤ t.tempo) && decide (t.tempo ≤ bpm_max / 2))
  else
    decide (bpm_min ≤ t.tempo) && decide (t.tempo ≤ bpm_max)

/-- The method _filter_by_bpm: keep the rows passing the tempo test. -/
def filter_by_bpm (df : List Track) (ref : Track) (tol : ℚ) (dh : Bool) :
    List Track :=
  df.filter (bpm_pass ref tol dh)

/-- The method _filter_by_key: when match_key is not set the frame is
returned unchanged, otherwise keep the rows whose full_key is among the
allowed keys. -/
def filter_by_key (df : List Track) (ref : Track)
    (mk include_relative : Bool) : List Track :=
  if mk then
    df.filter (fun t => decide (full_key t ∈ allowed_keys ref include_relative))
  else
    df

/-- The base tempo band of _filter_by_bpm, bounds bpm_min and bpm_max. -/
def in_base_band (ref tol x : ℚ) : Prop :=
  ref - tol ≤ x ∧ x ≤ ref + tol

/-- The doubled tempo band of _filter_by_bpm, bounds 2 * bpm_min and
2 * bpm_max. -/
def in_double_band (ref tol x : ℚ) : Prop :=
  2 * (ref - tol) ≤ x ∧ x ≤ 2 * (ref + tol)

/-- The halved tempo band of _filter_by_bpm, bounds bpm_min / 2 and
bpm_max / 2. -/
def in_half_band (ref tol x : ℚ) : Prop :=
  (ref - tol) / 2 ≤ x ∧ x ≤ (ref + tol) / 2

/-- Maximum of a list, as the pandas max aggregation of a column: none on an
empty column. -/
def listMax {α : Type} [LinearOrder α] : List α → Option α
  | [] => none
  | x :: xs =>
    some (match listMax xs with
          | none => x
          | some m => max x m)

/-- Minimum of a list, as the pandas min aggregation of a column: none on an
empty column. -/
def listMin {α : Type} [LinearOrder α] : List α → Option α
  | [] => none
  | x :: xs =>
    some (match listMin xs with
          | none => x
          | some m => min x m)

/-- The year normalization of _calculate_similarity: when the year range of
the candidate frame is positive, map a year affinely onto the unit interval
using the candidate-set minimum and maximum; otherwise every normalized
year, the reference one included, is 0. -/
def normalizedYear (df : List Track) (y : ℤ) : ℚ :=
  match listMin (df.map Track.year), listMax (df.map Track.year) with
  | some ymin, some ymax =>
    if 0 < ymax - ymin then ((y : ℚ) - (ymin : ℚ)) / ((ymax : ℚ) - (ymin : ℚ))
    else 0
  | _, _ => 0

/-- The sum of squared differences over the seven audio features, from the
squared_diffs loop of _calculate_similarity. -/
def audioDiffSq (ref t : Track) : ℚ :=
  (t.danceability - ref.danceability) ^ 2 +
  (t.energy - ref.energy) ^ 2 +
  (t.valence - ref.valence) ^ 2 +
  (t.acousticness - ref.acousticness) ^ 2 +
  (t.instrumentalness - ref.instrumentalness) ^ 2 +
  (t.speechiness - ref.speechiness) ^ 2 +
  (t.liveness - ref.liveness) ^ 2

/-- The distance column of _calculate_similarity: the square root of the sum
of the seven audio-feature squared differences and the squared normalized
year difference.  The square-root implementation is a parameter. -/
def distance (sqrtf : ℚ → ℚ) (df : List Track) (ref t : Track) : ℚ :=
  sqrtf (audioDiffSq ref t +
    (normalizedYear df t.year - normalizedYear df ref.year) ^ 2)

/-- The method _calculate_similarity: attach to every candidate its
similarity score, which is 1 - distance / max_distance when the maximum
distance over the candidate frame is positive, and 1 otherwise.  An empty
frame stays empty. -/
def calculate_similarity (sqrtf : ℚ → ℚ) (df : List Track) (ref : Track) :
    List (Track × ℚ) :=
  match listMax (df.map (distance sqrtf df ref)) with
  | none => []
  | some m =>
    if 0 < m then df.map (fun t => (t, 1 - distance sqrtf df ref t / m))
    else df.map (fun t => (t, (1 : ℚ)))

/-- The year test of find_compatible_songs, lines 268 to 271: the candidate
year lies between ref year minus tolerance and ref year plus tolerance,
both bounds inclusive. -/
def year_pass (ref : Track) (ytol : ℤ) (t : Track) : Bool :=
  decide (ref.year - ytol ≤ t.year) && decide (t.year ≤ ref.year + ytol)

/-- The filtering stage of find_compatible_songs: drop the reference row,
then apply the tempo filter, the key filter, the optional genre and subgenre
filters, and the year filter, in the order of the source. -/
def filtered_candidates (catalog : List Track) (cfg : Config)
    (refId : String) (ref : Track) : List Track :=
  let df := catalog.filter (fun t => t.track_id != refId)
  let df := filter_by_bpm df ref cfg.bpm_tolerance cfg.include_double_half
  let df := filter_by_key df ref cfg.match_key cfg.include_relative
  let df := if cfg.match_genre then
      df.filter (fun t => t.playlist_genre == ref.playlist_genre)
    else df
  let df := if cfg.match_subgenre then
      df.filter (fun t => t.playlist_subgenre == ref.playlist_subgenre)
    else df
  df.filter (year_pass ref cfg.year_tolerance)

/-- The deterministic part of find_compatible_songs: resolve the reference
row (none when the id matches no record), run the filtering stage, and
score the survivors.  The result is the scored candidate list in catalog
order, before the final sort. -/
def scoredResult (sqrtf : ℚ → ℚ) (catalog : List Track) (cfg : Config)
    (refId : String) : Option (List (Track × ℚ)) :=
  match catalog.find? (fun t => t.track_id == refId) with
  | none => none
  | some ref =>
    some (calculate_similarity sqrtf (filtered_candidates catalog cfg refId ref) ref)

/-- Ordered by non-increasing similarity score. -/
def SortedBySimDesc (l : List (Track × ℚ)) : Prop :=
  List.Sorted (fun p q : Track × ℚ => q.2 ≤ p.2) l

/-- The method find_compatible_songs, as a relation between its inputs and
its returned value.  The final statement of the method sorts the scored
frame with pandas sort_values under its default sort kind, a comparison
sort that is documented as not stable; the sort is therefore modelled as
any permutation of the scored candidates that is ordered by non-increasing
similarity. -/
def find_compatible_songs (sqrtf : ℚ → ℚ) (catalog : List Track)
    (cfg : Config) (refId : String) (out : Option (List (Track × ℚ))) : Prop :=
  (scoredResult sqrtf catalog cfg refId = none ∧ out = none) ∨
  (∃ scored l, scoredResult sqrtf catalog cfg refId = some scored ∧
    out = some l ∧ l.Perm scored ∧ SortedBySimDesc l)

/-- Position of a track in the catalog, counted from the front. -/
def catalog_index : List Track → Track → ℕ
  | [], _ => 0
  | x :: xs, t => if x = t then 0 else catalog_index xs t + 1

/-- Ties keep the original relative catalog order: whenever two result pairs
carry the same similarity score, the earlier pair belongs to the track that
comes first in the catalog. -/
def StableTies (catalog : List Track) (l : List (Track × ℚ)) : Prop :=
  List.Pairwise
    (fun p q : Track × ℚ =>
      p.2 = q.2 → catalog_index catalog p.1 ≤ catalog_index catalog q.1) l

/-- Identity function on the rationals, used to instantiate the abstract
square root at inputs whose distances are all zero, where every correct
square root agrees with it. -/
def idSqrt : ℚ → ℚ := fun x => x

/-! Concrete catalog entries used to exercise the definitions. -/

/-- A concrete track: C Major, 120 BPM, year 2000, pop. -/
def baseTrack : Track :=
  { track_id := "r", tempo := 120, key := 0, mode := 1, year := 2000,
    playlist_genre := "pop", playlist_subgenre := "dance pop",
    danceability := 0, energy := 0, valence := 0, acousticness := 0,
    instrumentalness := 0, speechiness := 0, liveness := 0 }

/-- A candidate identical to the base track apart from its id. -/
def aTrack : Track := { baseTrack with track_id := "a" }

/-- A second candidate identical to the base track apart from its id. -/
def bTrack : Track := { baseTrack with track_id := "b" }

/-- Candidate at tempo 240, double the base tempo. -/
def t240 : Track := { baseTrack with track_id := "t240", tempo := 240 }

/-- Candidate at tempo 60, half the base tempo. -/
def t60 : Track := { baseTrack with track_id := "t60", tempo := 60 }

/-- Candidate at tempo 121, inside the base band. -/
def t121 : Track := { baseTrack with track_id := "t121", tempo := 121 }

/-- Candidate at tempo 200, in none of the three bands. -/
def t200 : Track := { baseTrack with track_id := "t200", tempo := 200 }

/-- Candidate at tempo 125, exactly at the upper boundary for tolerance 5. -/
def t125 : Track := { baseTrack with track_id := "t125", tempo := 125 }

/-- Candidate at tempo 126, one beyond the upper boundary for tolerance 5. -/
def t126 : Track := { baseTrack with track_id := "t126", tempo := 126 }

/-- The default configuration of find_compatible_songs. -/
def cfgW : Config :=
  { bpm_tolerance := 5, include_double_half := false, match_key := true,
    include_relative := false, match_genre := false, match_subgenre := false,
    year_tolerance := 10 }

/-! Helper lemmas about the embedded operations. -/

theorem listMax_eq_none {α : Type} [LinearOrder α] {l : List α} :
    listMax l = none ↔ l = [] := by
  cases l <;> simp [listMax]

theorem le_of_mem_listMax {α : Type} [LinearOrder α] {l : List α} {m : α}
    (h : listMax l = some m) : ∀ a ∈ l, a ≤ m := by
  induction l generalizing m with
  | nil => simp [listMax] at h
  | cons x xs ih =>
    intro a ha
    have h' : (match listMax xs with | none => x | some mx => max x mx) = m := by
      simpa [listMax] using h
    rcases List.mem_cons.mp ha with rfl | hmem
    · cases hxs : listMax xs with
      | none =>
        rw [hxs] at h'
        exact le_of_eq h'
      | some mx =>
        rw [hxs] at h'
        have h2 : max a mx = m := h'
        exact h2 ▸ le_max_left _ _
    · cases hxs : listMax xs with
      | none =>
        have : xs = [] := listMax_eq_none.mp hxs
        subst this; simp at hmem
      | some mx =>
        rw [hxs] at h'
        have h2 : max x mx = m := h'
        exact le_trans (ih hxs a hmem) (h2 ▸ le_max_right _ _)

theorem mem_filter_by_bpm {df : List Track} {ref : Track} {tol : ℚ}
    {dh : Bool} {t : Track} :
    t ∈ filter_by_bpm df ref tol dh ↔ t ∈ df ∧ bpm_pass ref tol dh t = true := by
  simp [filter_by_bpm, List.mem_filter]

theorem mem_filter_by_key {df : List Track} {ref : Track}
    {mk ir : Bool} {t : Track} :
    t ∈ filter_by_key df ref mk ir ↔
      t ∈ df ∧ (mk = true → full_key t ∈ allowed_keys ref ir) := by
  cases mk <;> simp [filter_by_key, List.mem_filter]

theorem mem_filtered_candidates {catalog : List Track} {cfg : Config}
    {refId : String} {ref t : Track} :
    t ∈ filtered_candidates catalog cfg refId ref ↔
      t ∈ catalog ∧ t.track_id ≠ refId ∧
      bpm_pass ref cfg.bpm_tolerance cfg.include_double_half t = true ∧
      (cfg.match_key = true → full_key t ∈ allowed_keys ref cfg.include_relative) ∧
      (cfg.match_genre = true → t.playlist_genre = ref.playlist_genre) ∧
      (cfg.match_subgenre = true → t.playlist_subgenre = ref.playlist_subgenre) ∧
      year_pass ref cfg.year_tolerance t = true := by
  obtain ⟨bt, dh, mk, ir, mg, ms, yt⟩ := cfg
  cases mk <;> cases mg <;> cases ms <;>
    simp [filtered_candidates, filter_by_bpm, filter_by_key, List.mem_filter,
      and_assoc] <;>
    tauto

theorem audioDiffSq_nonneg (ref t : Track) : 0 ≤ audioDiffSq ref t := by
  unfold audioDiffSq; positivity

theorem distance_nonneg {sqrtf : ℚ → ℚ}
    (hs : ∀ x : ℚ, 0 ≤ x → 0 ≤ sqrtf x) (df : List Track) (ref t : Track) :
    0 ≤ distance sqrtf df ref t := by
  unfold distance
  exact hs _ (add_nonneg (audioDiffSq_nonneg _ _) (sq_nonneg _))

theorem fst_mem_of_mem_calculate_similarity {sqrtf : ℚ → ℚ}
    {df : List Track} {ref : Track} {p : Track × ℚ}
    (h : p ∈ calculate_similarity sqrtf df ref) : p.1 ∈ df := by
  unfold calculate_similarity at h
  rcases hm : listMax (df.map (distance sqrtf df ref)) with _ | m <;> rw [hm] at h
  · simp at h
  · simp only at h
    split at h <;> (simp only [List.mem_map] at h; obtain ⟨t, ht, rfl⟩ := h; exact ht)

theorem exists_mem_calculate_similarity {sqrtf : ℚ → ℚ}
    {df : List Track} {ref t : Track} (h : t ∈ df) :
    ∃ s, (t, s) ∈ calculate_similarity sqrtf df ref := by
  unfold calculate_similarity
  rcases hm : listMax (df.map (distance sqrtf df ref)) with _ | m
  · exfalso
    have : df = [] := by
      simpa using listMax_eq_none.mp hm
    simp [this] at h
  · simp only
    split
    · exact ⟨1 - distance sqrtf df ref t / m,
        List.mem_map_of_mem (fun t => (t, 1 - distance sqrtf df ref t / m)) h⟩
    · exact ⟨1, List.mem_map_of_mem (fun t => (t, (1 : ℚ))) h⟩

theorem calculate_similarity_bounds {sqrtf : ℚ → ℚ}
    (hs : ∀ x : ℚ, 0 ≤ x → 0 ≤ sqrtf x) {df : List Track} {ref : Track}
    {p : Track × ℚ} (h : p ∈ calculate_similarity sqrtf df ref) :
    0 ≤ p.2 ∧ p.2 ≤ 1 := by
  unfold calculate_similarity at h
  rcases hm : listMax (df.map (distance sqrtf df ref)) with _ | m <;> rw [hm] at h
  · simp at h
  · simp only at h
    split at h
    · next hpos =>
      simp only [List.mem_map] at h
      obtain ⟨t, ht, rfl⟩ := h
      have hd0 : 0 ≤ distance sqrtf df ref t := distance_nonneg hs df ref t
      have hdm : distance sqrtf df ref t ≤ m :=
        le_of_mem_listMax hm _ (List.mem_map_of_mem _ ht)
      constructor
      · simp only
        have : distance sqrtf df ref t / m ≤ 1 := (div_le_one hpos).mpr hdm
        linarith
      · simp only
        have : 0 ≤ distance sqrtf df ref t / m := div_nonneg hd0 (le_of_lt hpos)
        linarith
    · simp only [List.mem_map] at h
      obtain ⟨t, ht, rfl⟩ := h
      norm_num

theorem scoredResult_eq_none {sqrtf : ℚ → ℚ} {catalog : List Track}
    {cfg : Config} {refId : String} :
    scoredResult sqrtf catalog cfg refId = none ↔
      catalog.find? (fun t => t.track_id == refId) = none := by
  unfold scoredResult
  split <;> simp_all

theorem find_compatible_songs_some_elim {sqrtf : ℚ → ℚ}
    {catalog : List Track} {cfg : Config} {refId : String}
    {out : Option (List (Track × ℚ))} {l : List (Track × ℚ)}
    (hrel : find_compatible_songs sqrtf catalog cfg refId out)
    (hout : out = some l) :
    ∃ refT, catalog.find? (fun t => t.track_id == refId) = some refT ∧
      l.Perm (calculate_similarity sqrtf
        (filtered_candidates catalog cfg refId refT) refT) ∧
      SortedBySimDesc l := by
  rcases hrel with ⟨-, ho⟩ | ⟨scored, l', hsc, ho, hperm, hsorted⟩
  · rw [hout] at ho; exact absurd ho (by simp)
  · rw [hout] at ho
    obtain rfl : l = l' := by injection ho
    unfold scoredResult at hsc
    split at hsc
    · exact absurd hsc (by simp)
    · next refT hfind =>
      obtain rfl : calculate_similarity sqrtf
          (filtered_candidates catalog cfg refId refT) refT = scored := by
        injection hsc
      exact ⟨refT, hfind, hperm, hsorted⟩

/-! Concrete pipeline runs used by witnesses. -/

theorem scored_catW : scoredResult idSqrt [baseTrack, aTrack] cfgW "r" =
    some [(aTrack, 1)] := by
  norm_num [scoredResult, filtered_candidates, calculate_similarity,
    filter_by_bpm, filter_by_key, bpm_pass, year_pass, allowed_keys, full_key,
    key_map, mode_name, normalizedYear, distance, audioDiffSq, listMax,
    listMin, idSqrt, baseTrack, aTrack, cfgW, List.filter, List.find?]

theorem run_catW : find_compatible_songs idSqrt [baseTrack, aTrack] cfgW "r"
    (some [(aTrack, 1)]) :=
  Or.inr ⟨[(aTrack, 1)], [(aTrack, 1)], scored_catW, rfl, List.Perm.refl _,
    by unfold SortedBySimDesc; exact List.sorted_singleton _⟩

/-! The claims. -/

/-- C1: for every reference track id and every configuration, the track whose
id equals the reference id never appears among the (candidate, similarity)
pairs returned by find_compatible_songs. -/
theorem C1_reference_excluded (sqrtf : ℚ → ℚ) (catalog : List Track)
    (cfg : Config) (refId : String) (out : Option (List (Track × ℚ)))
    (l : List (Track × ℚ)) (t : Track) (s : ℚ)
    (hrel : find_compatible_songs sqrtf catalog cfg refId out)
    (hout : out = some l) (hmem : (t, s) ∈ l) : t.track_id ≠ refId := by
  obtain ⟨refT, hfind, hperm, -⟩ := find_compatible_songs_some_elim hrel hout
  have h1 : (t, s) ∈ calculate_similarity sqrtf
      (filtered_candidates catalog cfg refId refT) refT := hperm.subset hmem
  have h2 : t ∈ filtered_candidates catalog cfg refId refT :=
    fst_mem_of_mem_calculate_similarity h1
  exact (mem_filtered_candidates.mp h2).2.1

/-- Witness for C1 at a concrete catalog and configuration. -/
theorem C1_witness : aTrack.track_id ≠ "r" :=
  C1_reference_excluded idSqrt [baseTrack, aTrack] cfgW "r"
    (some [(aTrack, 1)]) [(aTrack, 1)] aTrack 1 run_catW rfl (by simp)

/-- C2: with include_double_half enabled, a candidate passes the tempo filter
exactly when its tempo lies in the base band, the doubled band, or the halved
band; for reference tempo 120 and tolerance 5, the candidates at tempo 240,
60 and 121 are included and the candidate at tempo 200 is excluded. -/
theorem C2_double_half_bands :
    (∀ (df : List Track) (ref c : Track) (tol : ℚ),
      c ∈ filter_by_bpm df ref tol true ↔
        c ∈ df ∧ (in_base_band ref.tempo tol c.tempo ∨
          in_double_band ref.tempo tol c.tempo ∨
          in_half_band ref.tempo tol c.tempo)) ∧
    t240 ∈ filter_by_bpm [t240, t60, t121, t200] baseTrack 5 true ∧
    t60 ∈ filter_by_bpm [t240, t60, t121, t200] baseTrack 5 true ∧
    t121 ∈ filter_by_bpm [t240, t60, t121, t200] baseTrack 5 true ∧
    t200 ∉ filter_by_bpm [t240, t60, t121, t200] baseTrack 5 true := by
  refine ⟨?_, ?_, ?_, ?_, ?_⟩
  · intro df ref c tol
    rw [mem_filter_by_bpm]
    simp only [bpm_pass, in_base_band, in_double_band, in_half_band, if_true,
      Bool.or_eq_true, Bool.and_eq_true, decide_eq_true_eq, or_assoc]
  all_goals
    norm_num [filter_by_bpm, bpm_pass, List.filter, baseTrack, t240, t60,
      t121, t200]

/-- C5: the relative-key mapping of _filter_by_key sends a major key nine
semitones up flipping to minor, a minor key three semitones up flipping to
major, is an involution on well-formed keys, always flips the mode, and
round-trips C major with A minor. -/
theorem C5_relative_key_involution (p m : ℕ) (hp : p < 12)
    (hm : m = 0 ∨ m = 1) :
    relative_key p 1 = ((p + 9) % 12, 0) ∧
    relative_key p 0 = ((p + 3) % 12, 1) ∧
    relative_key (relative_key p m).1 (relative_key p m).2 = (p, m) ∧
    (relative_key p m).2 ≠ m ∧
    relative_key 0 1 = (9, 0) ∧ relative_key 9 0 = (0, 1) := by
  rcases hm with rfl | rfl <;>
    simp [relative_key, Prod.ext_iff] <;> omega

/-- Witness for C5 at the pitch class 0 (C) in major mode. -/
theorem C5_witness :
    relative_key (relative_key 0 1).1 (relative_key 0 1).2 = (0, 1) :=
  (C5_relative_key_involution 0 1 (by norm_num) (Or.inr rfl)).2.2.1

/-- C7 fails as stated: for reference tempo 120 and tolerance 40, both the
base band and the doubled band contain the tempo 160, so the three bands are
not pairwise disjoint for every positive reference tempo and nonnegative
tolerance. -/
theorem C7_counterexample :
    (0 : ℚ) < 120 ∧ (0 : ℚ) ≤ 40 ∧
    in_base_band 120 40 160 ∧ in_double_band 120 40 160 := by
  norm_num [in_base_band, in_double_band]

/-- C7 (amended): the three inclusive tempo bands are pairwise disjoint
whenever the tolerance is nonnegative and less than a third of the reference
tempo. -/
theorem C7_bands_disjoint (ref tol x : ℚ) (h0 : 0 ≤ tol)
    (h3 : 3 * tol < ref) :
    ¬(in_base_band ref tol x ∧ in_double_band ref tol x) ∧
    ¬(in_base_band ref tol x ∧ in_half_band ref tol x) ∧
    ¬(in_double_band ref tol x ∧ in_half_band ref tol x) := by
  unfold in_base_band in_double_band in_half_band
  refine ⟨?_, ?_, ?_⟩ <;> rintro ⟨⟨ha, hb⟩, hc, hd⟩ <;> linarith

/-- Witness for the amended C7 at reference tempo 120, tolerance 5. -/
theorem C7_witness :
    ¬(in_base_band 120 5 118 ∧ in_double_band 120 5 118) :=
  (C7_bands_disjoint 120 5 118 (by norm_num) (by norm_num)).1

/-- C8: with include_double_half disabled, a candidate at exactly the
reference tempo plus the tolerance passes the tempo filter, and a candidate
one beyond that bound does not. -/
theorem C8_plain_boundary (df : List Track) (ref c c' : Track) (tol : ℚ)
    (htol : 0 ≤ tol) (hc : c.tempo = ref.tempo + tol)
    (hc' : c'.tempo = ref.tempo + tol + 1) (hcdf : c ∈ df) :
    c ∈ filter_by_bpm df ref tol false ∧
    c' ∉ filter_by_bpm df ref tol false := by
  constructor
  · rw [mem_filter_by_bpm]
    refine ⟨hcdf, ?_⟩
    simp [bpm_pass, hc]
    linarith
  · rw [mem_filter_by_bpm]
    rintro ⟨-, hpass⟩
    simp [bpm_pass, hc'] at hpass
    obtain ⟨-, h2⟩ := hpass
    linarith

/-- Witness for C8 at reference tempo 120 and tolerance 5: tempo 125 passes,
tempo 126 does not. -/
theorem C8_witness :
    t125 ∈ filter_by_bpm [t125, t126] baseTrack 5 false ∧
    t126 ∉ filter_by_bpm [t125, t126] baseTrack 5 false :=
  C8_plain_boundary [t125, t126] baseTrack t125 t126 5 (by norm_num)
    (by norm_num [t125, baseTrack]) (by norm_num [t126, baseTrack]) (by simp)

/-- Candidate whose year sits exactly at the lower year boundary for
tolerance 10 around year 2000. -/
def y1990 : Track := { baseTrack with track_id := "y1990", year := 1990 }

/-- Candidate whose year sits one below the lower year boundary for
tolerance 10 around year 2000. -/
def y1989 : Track := { baseTrack with track_id := "y1989", year := 1989 }

theorem scored_single : scoredResult idSqrt [baseTrack] cfgW "r" =
    some [] := by
  norm_num [scoredResult, filtered_candidates, calculate_similarity,
    filter_by_bpm, filter_by_key, bpm_pass, year_pass, allowed_keys, full_key,
    key_map, mode_name, normalizedYear, distance, audioDiffSq, listMax,
    listMin, idSqrt, baseTrack, cfgW, List.filter, List.find?]

theorem run_single : find_compatible_songs idSqrt [baseTrack] cfgW "r"
    (some []) :=
  Or.inr ⟨[], [], scored_single, rfl, List.Perm.refl _,
    by unfold SortedBySimDesc; exact List.sorted_nil⟩

/-- C4: find_compatible_songs returns none exactly when the reference id
matches no catalog record; when the reference exists but the filters
eliminate every candidate, it returns an empty ranked result rather than
none. -/
theorem C4_notfound_vs_empty (sqrtf : ℚ → ℚ) (catalog : List Track)
    (cfg : Config) (refId : String) (out : Option (List (Track × ℚ)))
    (hrel : find_compatible_songs sqrtf catalog cfg refId out) :
    (out = none ↔ ∀ t ∈ catalog, t.track_id ≠ refId) ∧
    (∀ refT, catalog.find? (fun t => t.track_id == refId) = some refT →
      filtered_candidates catalog cfg refId refT = [] → out = some []) := by
  constructor
  · constructor
    · intro ho
      rcases hrel with ⟨hn, -⟩ | ⟨scored, l, hsc, hol, -, -⟩
      · have hfn := scoredResult_eq_none.mp hn
        intro t ht hEq
        exact List.find?_eq_none.mp hfn t ht (by simp [hEq])
      · rw [hol] at ho; exact absurd ho (by simp)
    · intro hall
      have hfn : catalog.find? (fun t => t.track_id == refId) = none :=
        List.find?_eq_none.mpr (fun t ht => by simpa using hall t ht)
      rcases hrel with ⟨-, ho⟩ | ⟨scored, l, hsc, -, -, -⟩
      · exact ho
      · exfalso
        rw [scoredResult_eq_none.mpr hfn] at hsc
        exact absurd hsc (by simp)
  · intro refT hfind hempty
    rcases hrel with ⟨hn, -⟩ | ⟨scored, l, hsc, hol, hperm, -⟩
    · exfalso
      rw [scoredResult_eq_none] at hn
      rw [hfind] at hn
      exact absurd hn (by simp)
    · unfold scoredResult at hsc
      rw [hfind] at hsc
      simp only at hsc
      obtain rfl : calculate_similarity sqrtf
          (filtered_candidates catalog cfg refId refT) refT = scored := by
        injection hsc
      rw [hempty] at hperm
      have hcalc : calculate_similarity sqrtf ([] : List Track) refT = [] := rfl
      rw [hcalc] at hperm
      rw [hol, List.perm_nil.mp hperm]

/-- Witness for C4: a catalog holding only the reference track yields the
empty ranked result. -/
theorem C4_witness : (some ([] : List (Track × ℚ))) = some [] :=
  (C4_notfound_vs_empty idSqrt [baseTrack] cfgW "r" (some []) run_single).2
    baseTrack (by rfl)
    (by norm_num [filtered_candidates, filter_by_bpm, filter_by_key, bpm_pass,
      year_pass, allowed_keys, full_key, key_map, mode_name, baseTrack, cfgW,
      List.filter])

/-- C6: in _calculate_similarity, a zero maximum distance makes every
similarity exactly 1; a degenerate year range makes every normalized year 0;
and a sole candidate identical to the reference on the audio features gets
similarity 1. -/
theorem C6_degenerate_fallbacks (sqrtf : ℚ → ℚ) (df : List Track)
    (ref t : Track) (y : ℤ) (h0 : sqrtf 0 = 0)
    (h1 : t.danceability = ref.danceability) (h2 : t.energy = ref.energy)
    (h3 : t.valence = ref.valence) (h4 : t.acousticness = ref.acousticness)
    (h5 : t.instrumentalness = ref.instrumentalness)
    (h6 : t.speechiness = ref.speechiness) (h7 : t.liveness = ref.liveness) :
    (listMax (df.map (distance sqrtf df ref)) = some 0 →
      ∀ p ∈ calculate_similarity sqrtf df ref, p.2 = 1) ∧
    (listMin (df.map Track.year) = listMax (df.map Track.year) →
      normalizedYear df y = 0) ∧
    calculate_similarity sqrtf [t] ref = [(t, 1)] := by
  have hyear : ∀ (u : Track) (z : ℤ), normalizedYear [u] z = 0 := by
    intro u z
    unfold normalizedYear
    simp [listMin, listMax]
  refine ⟨?_, ?_, ?_⟩
  · intro hm p hp
    unfold calculate_similarity at hp
    rw [hm] at hp
    simp only at hp
    rw [if_neg (lt_irrefl 0)] at hp
    simp only [List.mem_map] at hp
    obtain ⟨u, -, rfl⟩ := hp
    rfl
  · intro hmin
    cases hA : listMin (df.map Track.year) with
    | none =>
      have hB : listMax (df.map Track.year) = none := by rw [← hmin]; exact hA
      unfold normalizedYear
      rw [hA, hB]
    | some a =>
      have hB : listMax (df.map Track.year) = some a := by rw [← hmin]; exact hA
      unfold normalizedYear
      rw [hA, hB]
      simp
  · have hd : distance sqrtf [t] ref t = 0 := by
      have ha : audioDiffSq ref t = 0 := by
        unfold audioDiffSq
        rw [h1, h2, h3, h4, h5, h6, h7]
        ring
      unfold distance
      rw [ha, hyear, hyear]
      simpa using h0
    unfold calculate_similarity
    have hmap : ([t].map (distance sqrtf [t] ref)) = [0] := by simp [hd]
    rw [hmap]
    have hlm : listMax [(0 : ℚ)] = some 0 := by simp [listMax]
    rw [hlm]
    simp only
    rw [if_neg (lt_irrefl 0)]
    simp

/-- Witness for C6: a sole candidate with the features of the reference gets
similarity 1. -/
theorem C6_witness : calculate_similarity idSqrt [aTrack] baseTrack =
    [(aTrack, 1)] :=
  (C6_degenerate_fallbacks idSqrt [aTrack] baseTrack aTrack 5 rfl rfl rfl rfl
    rfl rfl rfl rfl).2.2

/-- C9: the year filter boundary is inclusive, a candidate at exactly the
reference year minus the tolerance passes and one a year earlier does not,
and every pair returned by find_compatible_songs under any configuration has
passed the year filter. -/
theorem C9_year_boundary (ref c c' : Track) (ytol : ℤ) (h : 0 ≤ ytol)
    (hc : c.year = ref.year - ytol) (hc' : c'.year = ref.year - ytol - 1)
    (sqrtf : ℚ → ℚ) (catalog : List Track) (cfg : Config) (refId : String)
    (out : Option (List (Track × ℚ))) (l : List (Track × ℚ)) (p : Track × ℚ)
    (refT : Track)
    (hrel : find_compatible_songs sqrtf catalog cfg refId out)
    (hout : out = some l) (hmem : p ∈ l)
    (hfind : catalog.find? (fun t => t.track_id == refId) = some refT) :
    year_pass ref ytol c = true ∧ year_pass ref ytol c' = false ∧
    year_pass refT cfg.year_tolerance p.1 = true := by
  refine ⟨?_, ?_, ?_⟩
  · simp only [year_pass, hc, Bool.and_eq_true, decide_eq_true_eq]
    omega
  · simp only [year_pass, hc', Bool.and_eq_true, Bool.and_eq_false_iff,
      decide_eq_false_iff_not, decide_eq_true_eq]
    omega
  · obtain ⟨refT', hfind', hperm, -⟩ := find_compatible_songs_some_elim hrel hout
    obtain rfl : refT = refT' := by rw [hfind] at hfind'; injection hfind'
    have hp1 : p.1 ∈ filtered_candidates catalog cfg refId refT :=
      fst_mem_of_mem_calculate_similarity (hperm.subset hmem)
    exact (mem_filtered_candidates.mp hp1).2.2.2.2.2.2

/-- Witness for C9 at reference year 2000 and tolerance 10: year 1990 passes,
year 1989 does not, and the pair returned by the concrete run has passed the
year filter. -/
theorem C9_witness :
    year_pass baseTrack 10 y1990 = true ∧ year_pass baseTrack 10 y1989 = false ∧
    year_pass baseTrack cfgW.year_tolerance (aTrack, (1 : ℚ)).1 = true :=
  C9_year_boundary baseTrack y1990 y1989 10 (by norm_num)
    (by norm_num [y1990, baseTrack]) (by norm_num [y1989, baseTrack])
    idSqrt [baseTrack, aTrack] cfgW "r" (some [(aTrack, 1)]) [(aTrack, 1)]
    (aTrack, 1) baseTrack run_catW rfl (by simp) (by rfl)

theorem subset_of_mem_out_aux {sqrtf : ℚ → ℚ} {catalog : List Track}
    {refId : String} {cfgA cfgB : Config}
    (hsub : ∀ u refT, u ∈ filtered_candidates catalog cfgA refId refT →
      u ∈ filtered_candidates catalog cfgB refId refT)
    {out out' : Option (List (Track × ℚ))} {l l' : List (Track × ℚ)}
    {t : Track} {s : ℚ}
    (hA : find_compatible_songs sqrtf catalog cfgA refId out)
    (hB : find_compatible_songs sqrtf catalog cfgB refId out')
    (hl : out = some l) (hl' : out' = some l') (hmem : (t, s) ∈ l) :
    ∃ s', (t, s') ∈ l' := by
  obtain ⟨refT, hfindA, hpermA, -⟩ := find_compatible_songs_some_elim hA hl
  obtain ⟨refT', hfindB, hpermB, -⟩ := find_compatible_songs_some_elim hB hl'
  obtain rfl : refT = refT' := by rw [hfindA] at hfindB; injection hfindB
  have h1 : t ∈ filtered_candidates catalog cfgA refId refT :=
    fst_mem_of_mem_calculate_similarity (hpermA.subset hmem)
  obtain ⟨s', hs'⟩ := @exists_mem_calculate_similarity sqrtf
    (filtered_candidates catalog cfgB refId refT) refT t (hsub t refT h1)
  exact ⟨s', hpermB.mem_iff.mpr hs'⟩

/-- C10: enabling an additional filter never adds candidates.  For every
reference id, any track id returned with match_genre set is also returned
with match_genre unset, all other configuration fields equal, and likewise
for match_subgenre and for match_key. -/
theorem C10_filters_shrink (sqrtf : ℚ → ℚ) (catalog : List Track)
    (refId : String) (bt : ℚ) (dh mk ir mg ms : Bool) (yt : ℤ) :
    (∀ out out' l l' t s,
      find_compatible_songs sqrtf catalog ⟨bt, dh, mk, ir, true, ms, yt⟩ refId out →
      find_compatible_songs sqrtf catalog ⟨bt, dh, mk, ir, false, ms, yt⟩ refId out' →
      out = some l → out' = some l' → (t, s) ∈ l → ∃ s', (t, s') ∈ l') ∧
    (∀ out out' l l' t s,
      find_compatible_songs sqrtf catalog ⟨bt, dh, mk, ir, mg, true, yt⟩ refId out →
      find_compatible_songs sqrtf catalog ⟨bt, dh, mk, ir, mg, false, yt⟩ refId out' →
      out = some l → out' = some l' → (t, s) ∈ l → ∃ s', (t, s') ∈ l') ∧
    (∀ out out' l l' t s,
      find_compatible_songs sqrtf catalog ⟨bt, dh, true, ir, mg, ms, yt⟩ refId out →
      find_compatible_songs sqrtf catalog ⟨bt, dh, false, ir, mg, ms, yt⟩ refId out' →
      out = some l → out' = some l' → (t, s) ∈ l → ∃ s', (t, s') ∈ l') := by
  refine ⟨?_, ?_, ?_⟩ <;>
    (intro out out' l l' t s hA hB hl hl' hmem
     refine subset_of_mem_out_aux ?_ hA hB hl hl' hmem
     intro u refT hu
     rw [mem_filtered_candidates] at hu ⊢
     obtain ⟨a1, a2, a3, a4, a5, a6, a7⟩ := hu)
  · exact ⟨a1, a2, a3, a4, fun hh => absurd hh Bool.false_ne_true, a6, a7⟩
  · exact ⟨a1, a2, a3, a4, a5, fun hh => absurd hh Bool.false_ne_true, a7⟩
  · exact ⟨a1, a2, a3, fun hh => absurd hh Bool.false_ne_true, a5, a6, a7⟩

/-- The configuration of the C10 witness run with the genre filter set. -/
def cfgG : Config :=
  { bpm_tolerance := 5, include_double_half := false, match_key := true,
    include_relative := false, match_genre := true, match_subgenre := false,
    year_tolerance := 10 }

theorem scored_catG : scoredResult idSqrt [baseTrack, aTrack] cfgG "r" =
    some [(aTrack, 1)] := by
  norm_num [scoredResult, filtered_candidates, calculate_similarity,
    filter_by_bpm, filter_by_key, bpm_pass, year_pass, allowed_keys, full_key,
    key_map, mode_name, normalizedYear, distance, audioDiffSq, listMax,
    listMin, idSqrt, baseTrack, aTrack, cfgG, List.filter, List.find?]

theorem run_catG : find_compatible_songs idSqrt [baseTrack, aTrack] cfgG "r"
    (some [(aTrack, 1)]) :=
  Or.inr ⟨[(aTrack, 1)], [(aTrack, 1)], scored_catG, rfl, List.Perm.refl _,
    by unfold SortedBySimDesc; exact List.sorted_singleton _⟩

/-- Witness for C10: the candidate returned with the genre filter set is
also returned with it unset. -/
theorem C10_witness : ∃ s', (aTrack, s') ∈ [(aTrack, (1 : ℚ))] :=
  (C10_filters_shrink idSqrt [baseTrack, aTrack] "r" 5 false true false false
    false 10).1 (some [(aTrack, 1)]) (some [(aTrack, 1)]) [(aTrack, 1)]
    [(aTrack, 1)] aTrack 1 run_catG run_catW rfl rfl (by simp)

/-- C3 (amended): every similarity score of a ranked result of
find_compatible_songs lies in the closed unit interval and the result is
ordered by non-increasing similarity; the relative order of candidates with
equal similarity is whatever the underlying sort produces, since the
default sort kind of pandas sort_values is not a stable algorithm. -/
theorem C3_bounds_and_sorted (sqrtf : ℚ → ℚ)
    (hs : ∀ x : ℚ, 0 ≤ x → 0 ≤ sqrtf x) (catalog : List Track) (cfg : Config)
    (refId : String) (out : Option (List (Track × ℚ))) (l : List (Track × ℚ))
    (hrel : find_compatible_songs sqrtf catalog cfg refId out)
    (hout : out = some l) :
    (∀ p ∈ l, 0 ≤ p.2 ∧ p.2 ≤ 1) ∧ SortedBySimDesc l := by
  obtain ⟨refT, -, hperm, hsorted⟩ := find_compatible_songs_some_elim hrel hout
  exact ⟨fun p hp => calculate_similarity_bounds hs (hperm.subset hp), hsorted⟩

/-- Witness for the amended C3 at a concrete run. -/
theorem C3_witness : (0 ≤ (1 : ℚ) ∧ (1 : ℚ) ≤ 1) ∧
    SortedBySimDesc [(aTrack, 1)] := by
  have H := C3_bounds_and_sorted idSqrt (fun x hx => hx) [baseTrack, aTrack]
    cfgW "r" (some [(aTrack, 1)]) [(aTrack, 1)] run_catW rfl
  exact ⟨H.1 (aTrack, 1) (by simp), H.2⟩

theorem scored_catC :
    scoredResult idSqrt [baseTrack, aTrack, bTrack] cfgW "r" =
      some [(aTrack, 1), (bTrack, 1)] := by
  norm_num [scoredResult, filtered_candidates, calculate_similarity,
    filter_by_bpm, filter_by_key, bpm_pass, year_pass, allowed_keys, full_key,
    key_map, mode_name, normalizedYear, distance, audioDiffSq, listMax,
    listMin, idSqrt, baseTrack, aTrack, bTrack, cfgW, List.filter, List.find?]

/-- C3 fails as stated on the tie-order part: the sort performed by
find_compatible_songs is pandas sort_values under its default sort kind,
which is documented as not stable, so the code only guarantees a
similarity-sorted permutation of the scored candidates.  At a catalog whose
two candidates tie at similarity 1, that contract admits the output listing
the second candidate first, which does not keep the original catalog
order. -/
theorem C3_counterexample :
    find_compatible_songs idSqrt [baseTrack, aTrack, bTrack] cfgW "r"
      (some [(bTrack, 1), (aTrack, 1)]) ∧
    ¬ StableTies [baseTrack, aTrack, bTrack] [(bTrack, 1), (aTrack, 1)] := by
  constructor
  · exact Or.inr ⟨[(aTrack, 1), (bTrack, 1)], [(bTrack, 1), (aTrack, 1)],
      scored_catC, rfl, List.Perm.swap (aTrack, 1) (bTrack, 1) [],
      by unfold SortedBySimDesc; simp [List.sorted_cons]⟩
  · unfold StableTies
    decide
